import Mathlib

/-!
Verification of the omnibot deployment/orchestration core: the Runloop
client's error handling (`utils/runloop_api.py`), the health-check engine
and its thresholds (`utils/devbox_lifecycle.py`, `utils/health_checker.py`,
`scripts/qwen_blueprint_optimizer.py`), the devbox lifecycle reconciliation
(`get_or_create_healthy_devbox`), the deployment retry controller
(`deploy_qwen_with_retry`), the `.env` pointer store, and the swarm
quality score.

Remote I/O is modelled by oracles: a transport delivers either an HTTP
response or a transport exception (`Except`); per-invocation remote state
(listings, statuses, command results) is a record of pure functions.
Functions that perform remote calls also return an event trace so that
"never calls create", "persists the pointer", and "skips the health check"
are provable statements about the trace.
-/

namespace Omnibot

/-! ## JSON values and HTTP responses (the client's view of the provider) -/

/-- A decoded JSON value, as `response.json()` would produce it. -/
inductive JsonVal where
  | arr (xs : List JsonVal)
  | obj (fields : List (String × JsonVal))
  | str (s : String)
  | num (n : Int)
  | boolean (b : Bool)
  | null

/-- Dictionary lookup, `data[k]` / `data.get(k)` on a JSON object. -/
def JsonVal.get (v : JsonVal) (k : String) : Option JsonVal :=
  match v with
  | JsonVal.obj fields => (fields.find? fun p => p.1 == k).map Prod.snd
  | _ => none

/-- Whether the decoded value is a JSON object (`isinstance(data, dict)`). -/
def JsonVal.isDict (v : JsonVal) : Bool :=
  match v with
  | JsonVal.obj _ => true
  | _ => false

/-- Whether the decoded value is a JSON array (`isinstance(data, list)`). -/
def JsonVal.isArr (v : JsonVal) : Bool :=
  match v with
  | JsonVal.arr _ => true
  | _ => false

/-- One HTTP response as the client sees it: status code and decoded body. -/
structure HttpResponse where
  status_code : Nat
  body : JsonVal

/-- The outcome of one underlying HTTP request: either a response, or a
transport exception carrying its message. `make_request` itself installs no
handler, so the exception reaches whatever the calling operation does. -/
abbrev Transport := Except String HttpResponse

/-- The dictionary returned by `execute_command`, projected to the fields the
callers read. A missing key is `none` (`result.get(...)` on an absent key). -/
structure ExecResult where
  stdout : Option String := none
  stderr : Option String := none
  exit_status : Option Int := none
  error : Option String := none
deriving DecidableEq, Repr

/-! ## Remote instance client (`utils/runloop_api.py`)

Each operation takes the outcome of its one `make_request` call. Operations
whose Python body has no `try`/`except` propagate a transport exception
(`Except.error`); `suspend_devbox`, `delete_devbox` and `execute_command`
catch it and convert it. -/

/-- `list_devboxes`: on 200, unwrap a `{"devboxes": [...]}` envelope or pass a
bare array through; otherwise return `[]`. No exception handler. -/
def list_devboxes (t : Transport) : Except String JsonVal :=
  match t with
  | Except.error e => Except.error e
  | Except.ok response =>
    Except.ok
      (if response.status_code == 200 then
        if response.body.isDict && (response.body.get "devboxes").isSome then
          (response.body.get "devboxes").getD (JsonVal.arr [])
        else if response.body.isArr then
          response.body
        else JsonVal.arr []
      else JsonVal.arr [])

/-- `get_devbox`: on 200 return the decoded body, else `None`. No handler. -/
def get_devbox (t : Transport) : Except String (Option JsonVal) :=
  match t with
  | Except.error e => Except.error e
  | Except.ok response =>
    Except.ok (if response.status_code == 200 then some response.body else none)

/-- `create_devbox`: on 200/201 return `response.json().get('id')`, else
`None`. No handler. -/
def create_devbox (t : Transport) : Except String (Option JsonVal) :=
  match t with
  | Except.error e => Except.error e
  | Except.ok response =>
    Except.ok
      (if response.status_code == 200 || response.status_code == 201 then
        response.body.get "id"
      else none)

/-- `resume_devbox`: status in {200, 201}. No handler. -/
def resume_devbox (t : Transport) : Except String Bool :=
  match t with
  | Except.error e => Except.error e
  | Except.ok response =>
    Except.ok (response.status_code == 200 || response.status_code == 201)

/-- `suspend_devbox`: status in {200, 201}; a transport exception is caught
and becomes `False`. -/
def suspend_devbox (t : Transport) : Except String Bool :=
  match t with
  | Except.error _ => Except.ok false
  | Except.ok response =>
    Except.ok (response.status_code == 200 || response.status_code == 201)

/-- `delete_devbox`: status in {200, 204}; a transport exception is caught
and becomes `False`. -/
def delete_devbox (t : Transport) : Except String Bool :=
  match t with
  | Except.error _ => Except.ok false
  | Except.ok response =>
    Except.ok (response.status_code == 200 || response.status_code == 204)

/-- Projection of a decoded `execute_sync` body onto the result dictionary. -/
def parseExecBody (body : JsonVal) : ExecResult :=
  { stdout := (body.get "stdout").bind fun v =>
      match v with | JsonVal.str s => some s | _ => none,
    stderr := (body.get "stderr").bind fun v =>
      match v with | JsonVal.str s => some s | _ => none,
    exit_status := (body.get "exit_status").bind fun v =>
      match v with | JsonVal.num n => some n | _ => none,
    error := none }

/-- `execute_command`: on 200 return the decoded result; on another status an
error-shaped dictionary without `exit_status`; a transport exception is caught
and becomes an error dictionary with `exit_status = -1`. Never raises. -/
def execute_command (t : Transport) : ExecResult :=
  match t with
  | Except.error e =>
    { error := some ("Command execution failed: " ++ e), exit_status := some (-1) }
  | Except.ok response =>
    if response.status_code == 200 then parseExecBody response.body
    else { error := some ("Command failed with status " ++ toString response.status_code) }

/-! ## Health-check engine

The loop in `run_health_checks` (and its near-duplicates) executes every
entry of a checklist of `(name, command)` pairs against a command oracle,
counts the checks whose result has `exit_status == 0`, and derives a pass
rate. A command's outcome is a function of that command alone, so no check
can abort the others. -/

/-- A check passes exactly when its result's `exit_status` equals 0; a
missing `exit_status` (HTTP-failure dictionary) or `-1` (caught transport
exception) is a failure for that one check. -/
def isPass (r : ExecResult) : Bool :=
  r.exit_status == some 0

/-- The check loop: run every `(name, command)` pair through the command
oracle, returning the passed count and the per-check `(name, passed)` detail
list, in order. -/
def runChecks (exec : String → ExecResult) : List (String × String) → Nat × List (String × Bool)
  | [] => (0, [])
  | c :: rest =>
    let ok := isPass (exec c.2)
    let r := runChecks exec rest
    ((if ok then 1 else 0) + r.1, (c.1, ok) :: r.2)

/-- `passed_checks / total_checks`, as computed after the loop. -/
def passRate (exec : String → ExecResult) (checks : List (String × String)) : ℚ :=
  ((runChecks exec checks).1 : ℚ) / (checks.length : ℚ)

/-- The checklist of `DevboxLifecycleManager.run_health_checks`. -/
def HEALTH_CHECKS : List (String × String) :=
  [("Basic connectivity", "echo 'Hello from devbox'"),
   ("Python availability", "python3 --version"),
   ("Flask availability", "python3 -c 'import flask; print(\"Flask OK\")'"),
   ("Curl availability", "curl --version"),
   ("File system", "ls -la /home/user")]

/-- `DevboxLifecycleManager.run_health_checks`: healthy iff at least 80% of
the five checks pass. -/
def run_health_checks (exec : String → ExecResult) : Bool :=
  decide ((8 / 10 : ℚ) ≤ passRate exec HEALTH_CHECKS)

/-- The checklist of `QwenBlueprintOptimizer.run_qwen_health_checks`. -/
def QWEN_HEALTH_CHECKS : List (String × String) :=
  [("Basic connectivity", "echo 'Hello from Qwen devbox'"),
   ("Ollama service", "curl -s http://localhost:11434/api/tags"),
   ("Qwen server", "curl -s http://localhost:8000/health"),
   ("Model availability", "curl -s http://localhost:8000/qwen/models"),
   ("Python dependencies", "python3 -c 'import flask, requests; print(\"Dependencies OK\")'")]

/-- `QwenBlueprintOptimizer.run_qwen_health_checks`: despite the comment
about a higher bar, the classification is `success_rate >= 0.8`, the same
threshold as the general path. -/
def run_qwen_health_checks (exec : String → ExecResult) : Bool :=
  decide ((8 / 10 : ℚ) ≤ passRate exec QWEN_HEALTH_CHECKS)

/-- A devbox record as the lifecycle code reads it from a listing or a
`get_devbox` response: `id`, `name`, `status`. -/
structure Devbox where
  id : String
  name : String
  status : String
deriving DecidableEq, Repr

/-- The checklist of `HealthChecker.check_devbox_health`. -/
def HC_DEVBOX_CHECKS : List (String × String) :=
  [("Basic connectivity", "echo 'Health check: $(date)'"),
   ("Python availability", "python3 --version"),
   ("Flask availability", "python3 -c \"import flask; print('Flask OK')\""),
   ("Curl availability", "curl --version | head -1"),
   ("File system write", "echo 'test' > /tmp/health_check && rm /tmp/health_check"),
   ("Network connectivity", "curl -s --max-time 5 https://httpbin.org/get | grep -q 'httpbin'")]

/-- `HealthChecker.check_devbox_health`: fails when no devbox id is saved,
when the devbox cannot be fetched or is not `running`; then runs the six
checks and succeeds only when `success_rate` is not below 1.0. -/
def check_devbox_health (devbox_id : String) (get : String → Option Devbox)
    (exec : String → ExecResult) : Bool :=
  if devbox_id == "" then false
  else
    match get devbox_id with
    | none => false
    | some d =>
      if d.status != "running" then false
      else decide (¬ (passRate exec HC_DEVBOX_CHECKS < 1))

/-! ## Instance lifecycle manager (`utils/devbox_lifecycle.py`)

`get_or_create_healthy_devbox` is a chain of fallbacks over one
invocation's view of the remote state: the oracles of `LifecycleEnv` fix
what each remote call would observe. Every remote call and every pointer
write is recorded as an `ApiEvent` so that trace properties can be stated. -/

/-- One remote call or pointer write made during a lifecycle invocation. -/
inductive ApiEvent where
  | listDevboxes
  | getDevbox (id : String)
  | createDevbox
  | resumeDevbox (id : String)
  | deleteDevbox (id : String)
  | waitReady (id : String)
  | healthCheck (id : String)
  | savePointer (id : String)
deriving DecidableEq, Repr

/-- The remote state one lifecycle invocation observes: the saved pointer
(`""` when absent), the listing, the per-id fetch, and the outcomes of
resume, wait-for-ready, health checks and creation. -/
structure LifecycleEnv where
  savedId : String
  getDevbox : String → Option Devbox
  devboxes : List Devbox
  resumeOk : String → Bool
  waitReadyOk : String → Bool
  healthOk : String → Bool
  createResult : Option String

/-- The manager's fixed devbox name. -/
def devboxName : String := "omni-agent-enhanced"

/-- `cleanup_shutdown_devboxes`: list all devboxes and delete every one with
the manager's name and status `shutdown` (best-effort; failures logged). -/
def cleanup_shutdown_devboxes (env : LifecycleEnv) : List ApiEvent :=
  ApiEvent.listDevboxes ::
    (env.devboxes.filter fun d => d.name == devboxName && d.status == "shutdown").map
      (fun d => ApiEvent.deleteDevbox d.id)

/-- The saved-pointer step of `get_or_create_healthy_devbox`: if a pointer is
saved, fetch the devbox; `suspended` goes through resume, wait and a hard
health gate; `running` is health-checked but returned regardless of the
outcome; any other status (or a failed fetch) falls through. -/
def savedBranch (env : LifecycleEnv) : Option String × List ApiEvent :=
  if env.savedId == "" then (none, [])
  else
    match env.getDevbox env.savedId with
    | none => (none, [ApiEvent.getDevbox env.savedId])
    | some d =>
      if d.status == "suspended" then
        if env.resumeOk env.savedId then
          if env.waitReadyOk env.savedId then
            if env.healthOk env.savedId then
              (some env.savedId,
               [ApiEvent.getDevbox env.savedId, ApiEvent.resumeDevbox env.savedId,
                ApiEvent.waitReady env.savedId, ApiEvent.healthCheck env.savedId])
            else
              (none,
               [ApiEvent.getDevbox env.savedId, ApiEvent.resumeDevbox env.savedId,
                ApiEvent.waitReady env.savedId, ApiEvent.healthCheck env.savedId])
          else
            (none,
             [ApiEvent.getDevbox env.savedId, ApiEvent.resumeDevbox env.savedId,
              ApiEvent.waitReady env.savedId])
        else
          (none, [ApiEvent.getDevbox env.savedId, ApiEvent.resumeDevbox env.savedId])
      else if d.status == "running" then
        if env.healthOk env.savedId then
          (some env.savedId,
           [ApiEvent.getDevbox env.savedId, ApiEvent.healthCheck env.savedId])
        else
          (some env.savedId,
           [ApiEvent.getDevbox env.savedId, ApiEvent.healthCheck env.savedId])
      else (none, [ApiEvent.getDevbox env.savedId])

/-- The suspended-pool step: list all devboxes, take the first with the
manager's name and status `suspended`, resume it through the hard health
gate, and on success persist its id and return it. -/
def suspendedBranch (env : LifecycleEnv) : Option String × List ApiEvent :=
  match env.devboxes.find? (fun d => d.name == devboxName && d.status == "suspended") with
  | none => (none, [ApiEvent.listDevboxes])
  | some d =>
    if env.resumeOk d.id then
      if env.waitReadyOk d.id then
        if env.healthOk d.id then
          (some d.id,
           [ApiEvent.listDevboxes, ApiEvent.resumeDevbox d.id, ApiEvent.waitReady d.id,
            ApiEvent.healthCheck d.id, ApiEvent.savePointer d.id])
        else
          (none,
           [ApiEvent.listDevboxes, ApiEvent.resumeDevbox d.id, ApiEvent.waitReady d.id,
            ApiEvent.healthCheck d.id])
      else
        (none,
         [ApiEvent.listDevboxes, ApiEvent.resumeDevbox d.id, ApiEvent.waitReady d.id])
    else
      (none, [ApiEvent.listDevboxes, ApiEvent.resumeDevbox d.id])

/-- The running-pool step: list all devboxes, filter to the manager's name
with status `running`, and adopt the first match — persist its id and return
it, with no health check and no resume. -/
def runningBranch (env : LifecycleEnv) : Option String × List ApiEvent :=
  match (env.devboxes.filter fun d => d.name == devboxName && d.status == "running").head? with
  | none => (none, [ApiEvent.listDevboxes])
  | some d => (some d.id, [ApiEvent.listDevboxes, ApiEvent.savePointer d.id])

/-- The fresh-creation step: create a devbox, wait for `running`, run the
health checks, and persist and return the id whether or not they pass;
return nothing when creation fails or the devbox never becomes ready. -/
def createBranch (env : LifecycleEnv) : Option String × List ApiEvent :=
  match env.createResult with
  | none => (none, [ApiEvent.createDevbox])
  | some id =>
    if env.waitReadyOk id then
      if env.healthOk id then
        (some id,
         [ApiEvent.createDevbox, ApiEvent.waitReady id, ApiEvent.healthCheck id,
          ApiEvent.savePointer id])
      else
        (some id,
         [ApiEvent.createDevbox, ApiEvent.waitReady id, ApiEvent.healthCheck id,
          ApiEvent.savePointer id])
    else (none, [ApiEvent.createDevbox, ApiEvent.waitReady id])

/-- `get_or_create_healthy_devbox`: cleanup pass, then the saved pointer, the
suspended pool, the running pool and fresh creation, each step attempted only
after the previous one fell through; the result is the returned id (or none)
and the full trace of remote calls and pointer writes. -/
def get_or_create_healthy_devbox (env : LifecycleEnv) : Option String × List ApiEvent :=
  let ev0 := cleanup_shutdown_devboxes env
  match savedBranch env with
  | (some id, ev1) => (some id, ev0 ++ ev1)
  | (none, ev1) =>
    match suspendedBranch env with
    | (some id, ev2) => (some id, ev0 ++ ev1 ++ ev2)
    | (none, ev2) =>
      match runningBranch env with
      | (some id, ev3) => (some id, ev0 ++ ev1 ++ ev2 ++ ev3)
      | (none, ev3) =>
        match createBranch env with
        | (r, ev4) => (r, ev0 ++ ev1 ++ ev2 ++ ev3 ++ ev4)

/-! ## Deployment retry controller (`scripts/qwen_blueprint_optimizer.py`) -/

/-- `DeploymentStatus` of the optimizer. -/
inductive DeploymentStatus where
  | success
  | failed
  | retrying
  | rollback
deriving DecidableEq, Repr

/-- The `DeploymentResult` dataclass (elapsed-time bookkeeping omitted:
wall-clock time is not modelled). -/
structure DeploymentResult where
  status : DeploymentStatus
  devbox_id : Option String := none
  devbox_url : Option String := none
  error : Option String := none
  retry_count : Nat := 0
  health_check_passed : Bool := false
deriving DecidableEq, Repr

/-- `self.max_retries = 1`: exactly one retry. -/
def max_retries : Nat := 1

/-- A blueprint record as `get_blueprint` returns it. -/
structure Blueprint where
  id : String
  status : String
deriving DecidableEq, Repr

/-- What one deployment run observes: the fetched blueprint (`none` also
covers a fetch that raised, which `validate_blueprint` catches), the creation
outcome of each attempt, and the wait-for-ready and health-check outcomes. -/
structure QwenEnv where
  blueprint : Option Blueprint
  createResult : Nat → Option String
  waitReadyOk : String → Bool
  healthOk : String → Bool

/-- One remote step of the deployment controller. -/
inductive QwenEvent where
  | createDevbox
  | waitReady (id : String)
  | healthCheck (id : String)
deriving DecidableEq, Repr

/-- How many creation attempts a trace holds. -/
def createCount : List QwenEvent → Nat
  | [] => 0
  | QwenEvent.createDevbox :: rest => createCount rest + 1
  | _ :: rest => createCount rest

/-- `validate_blueprint`: ready exactly when the blueprint was fetched and
its status is `build_complete`. -/
def validate_blueprint (env : QwenEnv) : Bool :=
  match env.blueprint with
  | none => false
  | some b => b.status == "build_complete"

/-- The public URL derived from a devbox id. -/
def qwenDevboxUrl (id : String) : String :=
  "https://" ++ id ++ ".runloop.dev:8000"

/-- The `while retry_count <= self.max_retries` attempt loop: create, wait,
health-check (result only logged), and return success immediately with
`health_check_passed = True`; a failed create or wait increments the retry
counter; when attempts run out the result is `failed` with the final
counter. `fuel` is the number of attempts left, `max_retries + 1` at entry. -/
def deployAttemptLoop (env : QwenEnv) : Nat → Nat → DeploymentResult × List QwenEvent
  | rc, 0 =>
    ({ status := DeploymentStatus.failed,
       error := some ("Deployment failed after " ++ toString rc ++ " retries"),
       retry_count := rc }, [])
  | rc, fuel + 1 =>
    match env.createResult rc with
    | none =>
      let r := deployAttemptLoop env (rc + 1) fuel
      (r.1, QwenEvent.createDevbox :: r.2)
    | some id =>
      if env.waitReadyOk id then
        ({ status := DeploymentStatus.success,
           devbox_id := some id,
           devbox_url := some (qwenDevboxUrl id),
           retry_count := rc,
           health_check_passed := true },
         [QwenEvent.createDevbox, QwenEvent.waitReady id, QwenEvent.healthCheck id])
      else
        let r := deployAttemptLoop env (rc + 1) fuel
        (r.1, QwenEvent.createDevbox :: QwenEvent.waitReady id :: r.2)

/-- `deploy_qwen_with_retry`: validate the blueprint first and fail
immediately (no attempt, retry counter at its default 0) when it is not
ready; otherwise run the bounded attempt loop. -/
def deploy_qwen_with_retry (env : QwenEnv) : DeploymentResult × List QwenEvent :=
  if validate_blueprint env then
    deployAttemptLoop env 0 (max_retries + 1)
  else
    ({ status := DeploymentStatus.failed,
       error := some ("Blueprint not ready: " ++
         (match env.blueprint with
          | some b => b.status
          | none => "not found")) }, [])

/-! ## The `.env` pointer store

`save_devbox_id` rewrites the `.env` file (replace the first
`RUNLOOP_DEVOX_ID=` line in place, else append); `get_saved_devbox_id` reads
`os.environ`, which the module populates from `.env` once, at import. Lines
are modelled as character lists so that Python's `strip`/`split('=', 1)` can
be mirrored exactly. -/

/-- A line of the `.env` file (trailing newline included, as `readlines`
keeps it). -/
abbrev Line := List Char

/-- The whitespace characters `str.strip` removes (ASCII range). -/
def isSpaceChar (c : Char) : Bool :=
  c == ' ' || c == '\t' || c == '\n' || c == '\r' || c == '\x0B' || c == '\x0C'

/-- Python's `line.strip()`. -/
def strip (l : Line) : Line :=
  ((l.dropWhile isSpaceChar).reverse.dropWhile isSpaceChar).reverse

/-- Python's `s.split(sep, 1)` on a single character, when the separator
occurs: the part before the first occurrence and everything after it.
`none` models the two-element unpacking failing (a `ValueError`). -/
def splitFirst (c : Char) : Line → Option (Line × Line)
  | [] => none
  | x :: xs =>
    if x == c then some ([], xs)
    else
      match splitFirst c xs with
      | some p => some (x :: p.1, p.2)
      | none => none

/-- The pointer key. -/
def KEY : Line := "RUNLOOP_DEVOX_ID".toList

/-- The prefix `save_devbox_id` scans lines for. -/
def KEYLINE : Line := "RUNLOOP_DEVOX_ID=".toList

/-- Whether the loader processes a line: `line.strip()` non-empty and the
raw line not starting with `#`. -/
def processLine (l : Line) : Bool :=
  !(strip l).isEmpty && !(l.head? == some '#')

/-- The process environment, a key-value map with last-write-wins lookup. -/
abbrev Environ := List (Line × Line)

/-- `os.environ[key] = value`. -/
def setItem (env : Environ) (k v : Line) : Environ := (k, v) :: env

/-- `os.environ.get(key)`. -/
def getItem (env : Environ) (k : Line) : Option Line :=
  (List.find? (fun p => p.1 == k) env).map Prod.snd

/-- The `.env` loader run at module import: each processed line is split at
its first `=` and stored; a processed line with no `=` raises (modelled as
`none`). -/
def loadEnvFile : List Line → Environ → Option Environ
  | [], env => some env
  | l :: ls, env =>
    if processLine l then
      match splitFirst '=' (strip l) with
      | none => none
      | some kv => loadEnvFile ls (setItem env kv.1 kv.2)
    else loadEnvFile ls env

/-- `get_saved_devbox_id`: `os.getenv('RUNLOOP_DEVOX_ID', '')` — a read of
the process environment, not of the file. -/
def get_saved_devbox_id (env : Environ) : Line :=
  (getItem env KEY).getD []

/-- The line `save_devbox_id` writes. -/
def pointerLine (id : Line) : Line := KEYLINE ++ id ++ ['\n']

/-- Replace the first `RUNLOOP_DEVOX_ID=` line in place, else append. -/
def updateLines : List Line → Line → List Line
  | [], id => [pointerLine id]
  | l :: ls, id =>
    if KEYLINE.isPrefixOf l then pointerLine id :: ls
    else l :: updateLines ls id

/-- `save_devbox_id`: a no-op when the `.env` file does not exist, otherwise
rewrite it with the pointer line updated or appended. The process
environment is not touched. -/
def save_devbox_id : Option (List Line) → Line → Option (List Line)
  | none, _ => none
  | some lines, id => some (updateLines lines id)

/-- The key a line binds when the loader processes it. -/
def parsedKey (l : Line) : Option Line :=
  if processLine l then (splitFirst '=' (strip l)).map Prod.fst else none

/-! ## Swarm quality scoring

Modelled from the spec: the swarm orchestrator's per-response quality score
(section 4.5) is not among the repository's source files (only the
MCP/agent-role orchestrator is); the scoring rule below follows the spec's
words — +0.3 for a code fence or function/def keyword, +0.2 for
length > 200, +0.2 for a structured-explanation keyword, +0.2 for
length > 500, +0.1 for more than 5 newlines, capped at 1.0. -/

/-- Whether `pat` occurs as a contiguous substring (Python's `pat in s`). -/
def listInfix (p : List Char) : List Char → Bool
  | [] => p.isEmpty
  | c :: rest => p.isPrefixOf (c :: rest) || listInfix p rest

/-- Substring containment on strings. -/
def strContains (s pat : String) : Bool :=
  listInfix pat.toList s.toList

/-- The number of newline characters in a response. -/
def newlineCount (s : String) : Nat :=
  s.toList.count '\n'

/-- Modelled from the spec: the deterministic per-response quality score of
the swarm orchestrator, a function of the response text alone. -/
def quality_score (response : String) : ℚ :=
  let fenced : ℚ :=
    if strContains response "```" || strContains response "def " ||
        strContains response "function" then 3 / 10 else 0
  let longish : ℚ := if 200 < response.length then 2 / 10 else 0
  let keyword : ℚ :=
    if strContains response "implementation" || strContains response "example" ||
        strContains response "usage" || strContains response "test" then 2 / 10 else 0
  let long : ℚ := if 500 < response.length then 2 / 10 else 0
  let multiline : ℚ := if 5 < newlineCount response then 1 / 10 else 0
  min (fenced + longish + keyword + long + multiline) 1

/-- A concrete response: a code fence, the word "example", 600 characters,
8 newlines. -/
def sampleResponse : String :=
  "```example" ++ String.mk (List.replicate 582 'a') ++ String.mk (List.replicate 8 '\n')

/-! ## Concrete instances used to exercise the definitions -/

/-- A command oracle under which exactly the dependency check of the Qwen
battery fails: 4 of 5 checks pass. -/
def qwenExecFour : String → ExecResult := fun cmd =>
  if cmd == "python3 -c 'import flask, requests; print(\"Dependencies OK\")'" then
    { exit_status := some 1 }
  else { exit_status := some 0 }

/-- A lifecycle view with a saved pointer to a running devbox that fails its
health checks. -/
def envSavedRunning : LifecycleEnv :=
  { savedId := "dbx_main",
    getDevbox := fun i =>
      if i == "dbx_main" then some ⟨"dbx_main", devboxName, "running"⟩ else none,
    devboxes := [],
    resumeOk := fun _ => false,
    waitReadyOk := fun _ => false,
    healthOk := fun _ => false,
    createResult := none }

/-- A lifecycle view with no saved pointer, no suspended devbox, and one
running devbox of the manager's name in the listing. -/
def envRunningPool : LifecycleEnv :=
  { savedId := "",
    getDevbox := fun _ => none,
    devboxes := [⟨"dbx_run", devboxName, "running"⟩],
    resumeOk := fun _ => false,
    waitReadyOk := fun _ => false,
    healthOk := fun _ => false,
    createResult := none }

/-- A deployment view with a ready blueprint whose first creation attempt
fails and whose second succeeds. -/
def qenvRetry : QwenEnv :=
  { blueprint := some ⟨"bpt_1", "build_complete"⟩,
    createResult := fun rc => if rc == 0 then none else some "dbx_q",
    waitReadyOk := fun _ => true,
    healthOk := fun _ => true }

/-- A deployment view whose blueprint is still building. -/
def qenvBadBlueprint : QwenEnv :=
  { blueprint := some ⟨"bpt_1", "building"⟩,
    createResult := fun _ => none,
    waitReadyOk := fun _ => false,
    healthOk := fun _ => false }

/-- A deployment view that deploys cleanly but fails every health check. -/
def qenvUnhealthy : QwenEnv :=
  { blueprint := some ⟨"bpt_1", "build_complete"⟩,
    createResult := fun _ => some "dbx_q",
    waitReadyOk := fun _ => true,
    healthOk := fun _ => false }

/-- A serverside-failure HTTP response. -/
def resp500 : HttpResponse := { status_code := 500, body := JsonVal.null }

/-- A one-line `.env` file holding an unrelated key. -/
def envFileLines : List Line := ["RUNLOOP_API_KEY=abc\n".toList]

/-- A devbox id to persist. -/
def pointerId : Line := "dbx_42".toList

/-! ## Shared lemmas about the health-check loop -/

theorem runChecks_fst (exec : String → ExecResult) (checks : List (String × String)) :
    (runChecks exec checks).1 = (checks.filter fun c => isPass (exec c.2)).length := by
  induction checks with
  | nil => rfl
  | cons c rest ih =>
    simp only [runChecks, List.filter_cons]
    cases h : isPass (exec c.2) <;> simp [h, ih, Nat.add_comm]

theorem runChecks_snd (exec : String → ExecResult) (checks : List (String × String)) :
    (runChecks exec checks).2 = checks.map fun c => (c.1, isPass (exec c.2)) := by
  induction checks with
  | nil => rfl
  | cons c rest ih => simp [runChecks, ih]

theorem rate_ge_four_of_five (p : ℕ) : ((8 / 10 : ℚ) ≤ (p : ℚ) / 5) ↔ 4 ≤ p := by
  rw [le_div_iff₀ (by norm_num : (0 : ℚ) < 5)]
  have h : (8 / 10 : ℚ) * 5 = 4 := by norm_num
  rw [h]
  norm_cast

theorem rate_full_of_six (p : ℕ) : (¬ ((p : ℚ) / 6 < 1)) ↔ 6 ≤ p := by
  rw [not_lt, le_div_iff₀ (by norm_num : (0 : ℚ) < 6)]
  norm_num

/-- C4: the aggregate pass count is exactly the number of checks whose
command's result has exit status 0, the detail list covers every check of
the checklist in order (one check's failure aborts nothing), the pass rate
is exactly `passedCount / totalCount` as a rational, and a transport-error
or HTTP-failure result shape counts as a failure for that check alone. -/
theorem health_check_rate_exact :
    (∀ (exec : String → ExecResult) (checks : List (String × String)),
      (runChecks exec checks).1 = (checks.filter fun c => isPass (exec c.2)).length
      ∧ (runChecks exec checks).2 = (checks.map fun c => (c.1, isPass (exec c.2)))
      ∧ passRate exec checks =
          ((checks.filter fun c => isPass (exec c.2)).length : ℚ) / (checks.length : ℚ))
    ∧ ∀ msg : String,
        isPass { error := some msg, exit_status := some (-1) } = false
        ∧ isPass { error := some msg, exit_status := none } = false := by
  refine ⟨fun exec checks => ⟨runChecks_fst exec checks, runChecks_snd exec checks, ?_⟩,
    fun msg => ⟨rfl, rfl⟩⟩
  rw [passRate, runChecks_fst]

/-- C3 counterexample: a mix in which 4 of the 5 Qwen checks pass (pass rate
4/5, strictly below 100%) is still classified as a success by
`run_qwen_health_checks`, so the Qwen path does not require a 100% pass
rate. -/
theorem qwen_threshold_counterexample :
    run_qwen_health_checks qwenExecFour = true
    ∧ (runChecks qwenExecFour QWEN_HEALTH_CHECKS).1 = 4
    ∧ passRate qwenExecFour QWEN_HEALTH_CHECKS ≠ 1 := by
  have hc : (runChecks qwenExecFour QWEN_HEALTH_CHECKS).1 = 4 := by decide
  have hlen : ((QWEN_HEALTH_CHECKS.length : ℕ) : ℚ) = 5 := by norm_num [QWEN_HEALTH_CHECKS]
  refine ⟨?_, hc, ?_⟩
  · simp only [run_qwen_health_checks, decide_eq_true_eq]
    rw [passRate, hc, hlen]
    norm_num
  · rw [passRate, hc, hlen]
    norm_num

/-- C3 amended: thresholds are role-specific, but not as the claim divides
them — the general service path (`run_health_checks`) and the Qwen path
(`run_qwen_health_checks`) both classify the battery as healthy exactly when
the pass rate is at least 0.8 (at least 4 of 5 checks); the all-checks-passed
requirement lives in the deployment health checker `check_devbox_health`,
which succeeds exactly when a devbox id is saved, the devbox is fetched with
status `running`, and all 6 of its checks pass (pass rate exactly 100%). -/
theorem health_threshold_by_role (exec : String → ExecResult) :
    (run_health_checks exec = true ↔ (8 / 10 : ℚ) ≤ passRate exec HEALTH_CHECKS)
    ∧ (run_health_checks exec = true ↔ 4 ≤ (runChecks exec HEALTH_CHECKS).1)
    ∧ (run_qwen_health_checks exec = true ↔ (8 / 10 : ℚ) ≤ passRate exec QWEN_HEALTH_CHECKS)
    ∧ (run_qwen_health_checks exec = true ↔ 4 ≤ (runChecks exec QWEN_HEALTH_CHECKS).1)
    ∧ (∀ (id : String) (get : String → Option Devbox),
        check_devbox_health id get exec = true ↔
          (id ≠ "" ∧ ∃ d, get id = some d ∧ d.status = "running"
            ∧ (runChecks exec HC_DEVBOX_CHECKS).1 = 6)) := by
  have hlen : ((HEALTH_CHECKS.length : ℕ) : ℚ) = 5 := by norm_num [HEALTH_CHECKS]
  have hqlen : ((QWEN_HEALTH_CHECKS.length : ℕ) : ℚ) = 5 := by norm_num [QWEN_HEALTH_CHECKS]
  have hhlen : ((HC_DEVBOX_CHECKS.length : ℕ) : ℚ) = 6 := by norm_num [HC_DEVBOX_CHECKS]
  refine ⟨by simp [run_health_checks], ?_, by simp [run_qwen_health_checks], ?_, ?_⟩
  · simp only [run_health_checks, decide_eq_true_eq, passRate, hlen]
    exact rate_ge_four_of_five _
  · simp only [run_qwen_health_checks, decide_eq_true_eq, passRate, hqlen]
    exact rate_ge_four_of_five _
  · intro id get
    cases hid : id == "" with
    | true =>
      have hide : id = "" := by simpa using hid
      simp [check_devbox_health, hid, hide]
    | false =>
      have hne : id ≠ "" := by simpa using hid
      cases hget : get id with
      | none => simp [check_devbox_health, hid, hget]
      | some d =>
        cases hst : d.status != "running" with
        | true =>
          have hsne : d.status ≠ "running" := by simpa using hst
          simp [check_devbox_health, hid, hget, hst, hsne]
        | false =>
          have hrun : d.status = "running" := by simpa using hst
          have hple : (runChecks exec HC_DEVBOX_CHECKS).1 ≤ 6 := by
            rw [runChecks_fst]
            exact le_trans (List.length_filter_le _ _) (by norm_num [HC_DEVBOX_CHECKS])
          simp only [check_devbox_health, hid, Bool.false_eq_true, if_false, hget, hst,
            decide_eq_true_eq, passRate, hhlen]
          rw [rate_full_of_six]
          constructor
          · intro h6
            exact ⟨hne, d, rfl, hrun, le_antisymm hple h6⟩
          · rintro ⟨-, d', hd', -, hcount⟩
            exact le_of_eq hcount.symm

/-! ## Shared lemmas about the lifecycle trace -/

theorem cleanup_no_create (env : LifecycleEnv) :
    ApiEvent.createDevbox ∉ cleanup_shutdown_devboxes env := by
  simp [cleanup_shutdown_devboxes]

theorem savedBranch_no_create (env : LifecycleEnv) :
    ApiEvent.createDevbox ∉ (savedBranch env).2 := by
  unfold savedBranch
  repeat' split
  all_goals simp

theorem suspendedBranch_no_create (env : LifecycleEnv) :
    ApiEvent.createDevbox ∉ (suspendedBranch env).2 := by
  unfold suspendedBranch
  repeat' split
  all_goals simp

theorem runningBranch_no_create (env : LifecycleEnv) :
    ApiEvent.createDevbox ∉ (runningBranch env).2 := by
  unfold runningBranch
  repeat' split
  all_goals simp

theorem runningBranch_no_health (env : LifecycleEnv) (x : String) :
    ApiEvent.healthCheck x ∉ (runningBranch env).2 := by
  unfold runningBranch
  repeat' split
  all_goals simp

/-- C1: when the saved pointer refers to a devbox whose fetched status is
`running`, `get_or_create_healthy_devbox` returns that same saved id and its
trace contains no creation call — with no assumption on the health-check
outcome, so this covers both the passing and the failing case. -/
theorem saved_running_reuse (env : LifecycleEnv) (d : Devbox)
    (h0 : env.savedId ≠ "")
    (h1 : env.getDevbox env.savedId = some d)
    (h2 : d.status = "running") :
    (get_or_create_healthy_devbox env).1 = some env.savedId
    ∧ ApiEvent.createDevbox ∉ (get_or_create_healthy_devbox env).2 := by
  have hb : (env.savedId == "") = false := beq_eq_false_iff_ne.mpr h0
  have hs1 : (("running" : String) == "suspended") = false := by decide
  have hs2 : (("running" : String) == "running") = true := by decide
  have hsb : savedBranch env =
      (some env.savedId,
       [ApiEvent.getDevbox env.savedId, ApiEvent.healthCheck env.savedId]) := by
    simp [savedBranch, hb, h1, h2, hs1, hs2]
  have key : get_or_create_healthy_devbox env =
      (some env.savedId,
       cleanup_shutdown_devboxes env ++
         [ApiEvent.getDevbox env.savedId, ApiEvent.healthCheck env.savedId]) := by
    simp [get_or_create_healthy_devbox, hsb]
  rw [key]
  refine ⟨rfl, ?_⟩
  simp only [List.mem_append]
  rintro (h | h)
  · exact cleanup_no_create env h
  · simp at h

/-- C1 witness: a concrete saved pointer to a running devbox that fails its
health checks is still returned, with no creation call in the trace. -/
theorem saved_running_reuse_witness :
    (get_or_create_healthy_devbox envSavedRunning).1 = some "dbx_main"
    ∧ ApiEvent.createDevbox ∉ (get_or_create_healthy_devbox envSavedRunning).2 :=
  saved_running_reuse envSavedRunning ⟨"dbx_main", devboxName, "running"⟩
    (by decide) rfl rfl

/-- C2: when the saved-pointer step and the suspended-pool step both fall
through and the listing's first matching-name running devbox is `d`, the
manager adopts `d`: it persists `d.id`, returns it, performs no creation
call, and the running-pool step runs no health check at all. -/
theorem running_pool_adopt (env : LifecycleEnv) (d : Devbox)
    (h1 : (savedBranch env).1 = none)
    (h2 : (suspendedBranch env).1 = none)
    (h3 : (env.devboxes.filter fun x => x.name == devboxName && x.status == "running").head?
      = some d) :
    (get_or_create_healthy_devbox env).1 = some d.id
    ∧ ApiEvent.savePointer d.id ∈ (get_or_create_healthy_devbox env).2
    ∧ ApiEvent.createDevbox ∉ (get_or_create_healthy_devbox env).2
    ∧ ∀ x, ApiEvent.healthCheck x ∉ (runningBranch env).2 := by
  have hrb : runningBranch env = (some d.id, [ApiEvent.listDevboxes, ApiEvent.savePointer d.id]) := by
    unfold runningBranch
    rw [h3]
  rcases hsb : savedBranch env with ⟨o1, ev1⟩
  rw [hsb] at h1
  simp only at h1
  subst h1
  rcases hss : suspendedBranch env with ⟨o2, ev2⟩
  rw [hss] at h2
  simp only at h2
  subst h2
  have hnc1 : ApiEvent.createDevbox ∉ ev1 := by
    have := savedBranch_no_create env
    rw [hsb] at this
    exact this
  have hnc2 : ApiEvent.createDevbox ∉ ev2 := by
    have := suspendedBranch_no_create env
    rw [hss] at this
    exact this
  have key : get_or_create_healthy_devbox env =
      (some d.id,
       cleanup_shutdown_devboxes env ++ ev1 ++ ev2 ++
         [ApiEvent.listDevboxes, ApiEvent.savePointer d.id]) := by
    simp [get_or_create_healthy_devbox, hsb, hss, hrb]
  refine ⟨by rw [key], ?_, ?_, fun x => runningBranch_no_health env x⟩
  · rw [key]
    simp
  · rw [key]
    simp only [List.mem_append]
    rintro (((h | h) | h) | h)
    · exact cleanup_no_create env h
    · exact hnc1 h
    · exact hnc2 h
    · simp at h

/-- C2 witness: with no saved pointer, nothing suspended, and one running
matching-name devbox in the listing, that devbox is adopted: pointer saved,
id returned, no creation, no health check in the adoption step. -/
theorem running_pool_adopt_witness :
    (get_or_create_healthy_devbox envRunningPool).1 = some "dbx_run"
    ∧ ApiEvent.savePointer "dbx_run" ∈ (get_or_create_healthy_devbox envRunningPool).2
    ∧ ApiEvent.createDevbox ∉ (get_or_create_healthy_devbox envRunningPool).2
    ∧ ∀ x, ApiEvent.healthCheck x ∉ (runningBranch envRunningPool).2 :=
  running_pool_adopt envRunningPool ⟨"dbx_run", devboxName, "running"⟩ rfl rfl rfl

/-! ## Shared lemmas about the deployment attempt loop -/

theorem createCount_cons_create (rest : List QwenEvent) :
    createCount (QwenEvent.createDevbox :: rest) = createCount rest + 1 := rfl

theorem createCount_cons_wait (id : String) (rest : List QwenEvent) :
    createCount (QwenEvent.waitReady id :: rest) = createCount rest := rfl

theorem createCount_cons_health (id : String) (rest : List QwenEvent) :
    createCount (QwenEvent.healthCheck id :: rest) = createCount rest := rfl

theorem createCount_loop_le (env : QwenEnv) :
    ∀ (fuel rc : Nat), createCount (deployAttemptLoop env rc fuel).2 ≤ fuel := by
  intro fuel
  induction fuel with
  | zero => intro rc; simp [deployAttemptLoop, createCount]
  | succ n ih =>
    intro rc
    unfold deployAttemptLoop
    cases hc : env.createResult rc with
    | none =>
      dsimp only
      rw [createCount_cons_create]
      exact Nat.add_le_add_right (ih (rc + 1)) 1
    | some id =>
      dsimp only
      by_cases hw : env.waitReadyOk id = true
      · rw [if_pos hw]
        simp [createCount]
      · rw [if_neg hw]
        dsimp only
        rw [createCount_cons_create, createCount_cons_wait]
        exact Nat.add_le_add_right (ih (rc + 1)) 1

theorem loop_success_flag (env : QwenEnv) :
    ∀ (fuel rc : Nat),
      (deployAttemptLoop env rc fuel).1.status = DeploymentStatus.success →
      (deployAttemptLoop env rc fuel).1.health_check_passed = true := by
  intro fuel
  induction fuel with
  | zero => intro rc h; simp [deployAttemptLoop] at h
  | succ n ih =>
    intro rc h
    unfold deployAttemptLoop at h ⊢
    cases hc : env.createResult rc with
    | none =>
      rw [hc] at h
      dsimp only at h ⊢
      exact ih (rc + 1) h
    | some id =>
      rw [hc] at h
      dsimp only at h ⊢
      by_cases hw : env.waitReadyOk id = true
      · rw [if_pos hw]
      · rw [if_neg hw] at h ⊢
        dsimp only at h ⊢
        exact ih (rc + 1) h

/-- C5: the attempt loop makes at most `max_retries + 1` creation attempts
for every deployment run; and in a run whose first creation attempt fails
and whose second succeeds (the devbox then becoming ready), the controller
returns immediately with status success, `retry_count = 1`, the created id,
and exactly 2 creation attempts in the trace. -/
theorem deploy_single_retry (env : QwenEnv) (id : String)
    (hv : validate_blueprint env = true)
    (h0 : env.createResult 0 = none)
    (h1 : env.createResult 1 = some id)
    (hw : env.waitReadyOk id = true) :
    ((deploy_qwen_with_retry env).1.status = DeploymentStatus.success
     ∧ (deploy_qwen_with_retry env).1.retry_count = 1
     ∧ (deploy_qwen_with_retry env).1.devbox_id = some id
     ∧ createCount (deploy_qwen_with_retry env).2 = 2)
    ∧ ∀ env2 : QwenEnv, createCount (deploy_qwen_with_retry env2).2 ≤ max_retries + 1 := by
  constructor
  · refine ⟨?_, ?_, ?_, ?_⟩ <;>
      simp [deploy_qwen_with_retry, hv, max_retries, deployAttemptLoop, h0, h1, hw, createCount]
  · intro env2
    unfold deploy_qwen_with_retry
    split
    · exact createCount_loop_le env2 (max_retries + 1) 0
    · simp [createCount]

/-- C5 witness: the concrete one-transient-failure run reports success with
one retry and two creation attempts; the attempt bound holds as well. -/
theorem deploy_single_retry_witness :
    ((deploy_qwen_with_retry qenvRetry).1.status = DeploymentStatus.success
     ∧ (deploy_qwen_with_retry qenvRetry).1.retry_count = 1
     ∧ (deploy_qwen_with_retry qenvRetry).1.devbox_id = some "dbx_q"
     ∧ createCount (deploy_qwen_with_retry qenvRetry).2 = 2)
    ∧ ∀ env2 : QwenEnv, createCount (deploy_qwen_with_retry env2).2 ≤ max_retries + 1 :=
  deploy_single_retry qenvRetry "dbx_q" rfl rfl rfl rfl

/-- C6: whenever the blueprint does not validate (missing, unfetchable, or
any status other than build_complete), the controller fails immediately:
status failed, retry counter left at its default 0, and an empty remote
trace — no attempt loop, no instance created. -/
theorem deploy_blueprint_gate (env : QwenEnv)
    (h : validate_blueprint env = false) :
    (deploy_qwen_with_retry env).1.status = DeploymentStatus.failed
    ∧ (deploy_qwen_with_retry env).1.retry_count = 0
    ∧ (deploy_qwen_with_retry env).2 = [] := by
  simp [deploy_qwen_with_retry, h]

/-- C6 witness: a blueprint still in status `building` fails immediately
with zero retries and no creation. -/
theorem deploy_blueprint_gate_witness :
    (deploy_qwen_with_retry qenvBadBlueprint).1.status = DeploymentStatus.failed
    ∧ (deploy_qwen_with_retry qenvBadBlueprint).1.retry_count = 0
    ∧ (deploy_qwen_with_retry qenvBadBlueprint).2 = [] :=
  deploy_blueprint_gate qenvBadBlueprint rfl

/-- C10: every successful deployment result carries
`health_check_passed = true`, unconditionally — the health-check verdict of
the run is not consulted when the result object is built. -/
theorem success_health_flag_unconditional (env : QwenEnv)
    (h : (deploy_qwen_with_retry env).1.status = DeploymentStatus.success) :
    (deploy_qwen_with_retry env).1.health_check_passed = true := by
  by_cases hv : validate_blueprint env = true
  · rw [deploy_qwen_with_retry, if_pos hv] at h ⊢
    exact loop_success_flag env (max_retries + 1) 0 h
  · have hf : validate_blueprint env = false := by
      simpa using hv
    rw [deploy_qwen_with_retry, if_neg ?_] at h
    · simp at h
    · simp [hf]

/-- C10 witness: a run in which every health check fails still reports
success with `health_check_passed = true`. -/
theorem success_health_flag_unconditional_witness :
    qenvUnhealthy.healthOk "dbx_q" = false
    ∧ (deploy_qwen_with_retry qenvUnhealthy).1.status = DeploymentStatus.success
    ∧ (deploy_qwen_with_retry qenvUnhealthy).1.health_check_passed = true :=
  ⟨rfl, by decide, success_health_flag_unconditional qenvUnhealthy (by decide)⟩

/-- C7 counterexample: for the list, get, create and resume operations a
transport exception is not converted — it propagates to the caller, so the
client does let transport exceptions escape on these operations. -/
theorem transport_error_propagates :
    list_devboxes (Except.error "connection timed out") = Except.error "connection timed out"
    ∧ get_devbox (Except.error "connection timed out") = Except.error "connection timed out"
    ∧ create_devbox (Except.error "connection timed out") = Except.error "connection timed out"
    ∧ resume_devbox (Except.error "connection timed out") = Except.error "connection timed out" :=
  ⟨rfl, rfl, rfl, rfl⟩

/-- C7 amended: HTTP-status failures are converted to a falsy/null/error
shape by every operation; transport exceptions are caught and converted only
by suspend, delete and executeCommand (false / false / error dictionary with
exit status -1) — list, get, create and resume let them propagate. -/
theorem client_failure_semantics (e : String) (r : HttpResponse)
    (h200 : r.status_code ≠ 200) (h201 : r.status_code ≠ 201) (h204 : r.status_code ≠ 204) :
    list_devboxes (Except.ok r) = Except.ok (JsonVal.arr [])
    ∧ get_devbox (Except.ok r) = Except.ok none
    ∧ create_devbox (Except.ok r) = Except.ok none
    ∧ resume_devbox (Except.ok r) = Except.ok false
    ∧ suspend_devbox (Except.ok r) = Except.ok false
    ∧ delete_devbox (Except.ok r) = Except.ok false
    ∧ (execute_command (Except.ok r)).error.isSome = true
    ∧ (execute_command (Except.ok r)).exit_status = none
    ∧ suspend_devbox (Except.error e) = Except.ok false
    ∧ delete_devbox (Except.error e) = Except.ok false
    ∧ (execute_command (Except.error e)).error.isSome = true
    ∧ (execute_command (Except.error e)).exit_status = some (-1)
    ∧ list_devboxes (Except.error e) = Except.error e
    ∧ get_devbox (Except.error e) = Except.error e
    ∧ create_devbox (Except.error e) = Except.error e
    ∧ resume_devbox (Except.error e) = Except.error e := by
  have b200 : (r.status_code == 200) = false := beq_eq_false_iff_ne.mpr h200
  have b201 : (r.status_code == 201) = false := beq_eq_false_iff_ne.mpr h201
  have b204 : (r.status_code == 204) = false := beq_eq_false_iff_ne.mpr h204
  refine ⟨?_, ?_, ?_, ?_, ?_, ?_, ?_, ?_, rfl, rfl, rfl, rfl, rfl, rfl, rfl, rfl⟩ <;>
    simp [list_devboxes, get_devbox, create_devbox, resume_devbox, suspend_devbox,
      delete_devbox, execute_command, b200, b201, b204]

/-- C7 witness: a 500 response is converted to the falsy shapes and a
concrete transport exception is propagated by the list operation. -/
theorem client_failure_semantics_witness :
    resp500.status_code ≠ 200
    ∧ list_devboxes (Except.ok resp500) = Except.ok (JsonVal.arr [])
    ∧ resume_devbox (Except.ok resp500) = Except.ok false
    ∧ suspend_devbox (Except.error "boom") = Except.ok false
    ∧ (execute_command (Except.error "boom")).exit_status = some (-1)
    ∧ list_devboxes (Except.error "boom") = Except.error "boom" := by
  have h := client_failure_semantics "boom" resp500 (by decide) (by decide) (by decide)
  obtain ⟨c1, c2, c3, c4, c5, c6, c7, c8, c9, c10, c11, c12, c13, c14, c15, c16⟩ := h
  exact ⟨by decide, c1, c4, c9, c12, c13⟩

/-! ## Shared lemmas about the pointer store -/

theorem keyline_decomp : KEYLINE = KEY ++ ['='] := by decide

theorem splitFirst_before (c : Char) (l1 l2 : List Char) (h : c ∉ l1) :
    splitFirst c (l1 ++ c :: l2) = some (l1, l2) := by
  induction l1 with
  | nil => simp [splitFirst]
  | cons a as ih =>
    simp only [List.mem_cons, not_or] at h
    have ha : (a == c) = false := beq_eq_false_iff_ne.mpr fun hh => h.1 hh.symm
    simp [splitFirst, ha, ih h.2]

theorem loadEnvFile_preserves (ls : List Line) : ∀ env0 : Environ,
    (∀ l ∈ ls, processLine l = true → (splitFirst '=' (strip l)).isSome = true) →
    (∀ l ∈ ls, parsedKey l ≠ some KEY) →
    ∃ env', loadEnvFile ls env0 = some env' ∧ getItem env' KEY = getItem env0 KEY := by
  induction ls with
  | nil => intro env0 _ _; exact ⟨env0, rfl, rfl⟩
  | cons l ls ih =>
    intro env0 hc hk
    by_cases hp : processLine l = true
    · have hs := hc l (List.mem_cons_self l ls) hp
      obtain ⟨kv, hkv⟩ := Option.isSome_iff_exists.mp hs
      have hkv1 : kv.1 ≠ KEY := by
        have hpk := hk l (List.mem_cons_self l ls)
        rw [parsedKey, if_pos hp, hkv] at hpk
        simpa using hpk
      have hkey : (kv.1 == KEY) = false := beq_eq_false_iff_ne.mpr hkv1
      obtain ⟨env', h1, h2⟩ := ih (setItem env0 kv.1 kv.2)
        (fun x hx hpx => hc x (List.mem_cons_of_mem _ hx) hpx)
        (fun x hx => hk x (List.mem_cons_of_mem _ hx))
      refine ⟨env', ?_, ?_⟩
      · simp [loadEnvFile, hp, hkv, h1]
      · rw [h2]
        simp [getItem, setItem, List.find?, hkey]
    · have hp' : processLine l = false := by simpa using hp
      obtain ⟨env', h1, h2⟩ := ih env0
        (fun x hx hpx => hc x (List.mem_cons_of_mem _ hx) hpx)
        (fun x hx => hk x (List.mem_cons_of_mem _ hx))
      exact ⟨env', by simp [loadEnvFile, hp', h1], h2⟩

/-- C8 counterexample: saving a new id rewrites the file, but
`get_saved_devbox_id` reads the process environment, which still holds the
value loaded at import — the immediate re-read yields the old id, not the
one just persisted. -/
theorem pointer_store_stale_read :
    save_devbox_id (some ["RUNLOOP_DEVOX_ID=old\n".toList]) "new".toList
      = some ["RUNLOOP_DEVOX_ID=new\n".toList]
    ∧ get_saved_devbox_id [(KEY, "old".toList)] = "old".toList
    ∧ "old".toList ≠ "new".toList := by
  refine ⟨by decide, by decide, by decide⟩

/-- C8 amended: the round-trip holds through a reload of the store — after
`save_devbox_id` updates an existing `.env` file, re-running the import-time
loader and then `get_saved_devbox_id` yields the identical id — provided the
id survives the line format (single line, strip-invariant in context), every
line of the file parses, and no other line binds the pointer key. -/
theorem pointer_store_reload_roundtrip (lines : List Line) (id : Line) (env0 : Environ)
    (hid : strip (pointerLine id) = KEYLINE ++ id)
    (_hnl : '\n' ∉ id)
    (hcrash : ∀ l ∈ lines, processLine l = true → (splitFirst '=' (strip l)).isSome = true)
    (hdup : (lines.filter fun l => KEYLINE.isPrefixOf l).length ≤ 1)
    (hkey : ∀ l ∈ lines, ¬ KEYLINE.isPrefixOf l = true → parsedKey l ≠ some KEY) :
    ∃ env', loadEnvFile (updateLines lines id) env0 = some env'
      ∧ get_saved_devbox_id env' = id := by
  have hKL : KEYLINE = 'R' :: "UNLOOP_DEVOX_ID=".toList := by decide
  have hhead : (pointerLine id).head? = some 'R' := by
    rw [pointerLine, hKL]
    simp
  have hproc : processLine (pointerLine id) = true := by
    rw [processLine, hid, hhead, hKL]
    simp
  have hsplit : splitFirst '=' (strip (pointerLine id)) = some (KEY, id) := by
    rw [hid, keyline_decomp, List.append_assoc]
    exact splitFirst_before '=' KEY id (by decide)
  revert hcrash hdup hkey
  induction lines generalizing env0 with
  | nil =>
    intro _ _ _
    refine ⟨setItem env0 KEY id, ?_, ?_⟩
    · simp [updateLines, loadEnvFile, hproc, hsplit]
    · simp [get_saved_devbox_id, getItem, setItem, List.find?]
  | cons l ls ih =>
    intro hcrash hdup hkey
    by_cases hpre : KEYLINE.isPrefixOf l = true
    · have hnone : ∀ x ∈ ls, parsedKey x ≠ some KEY := by
        intro x hx
        by_cases hxpre : KEYLINE.isPrefixOf x = true
        · exfalso
          have h1 : (ls.filter fun l => KEYLINE.isPrefixOf l).length = 0 := by
            simp only [List.filter_cons, hpre, if_pos, List.length_cons] at hdup
            omega
          have h2 : x ∈ ls.filter fun l => KEYLINE.isPrefixOf l :=
            List.mem_filter.mpr ⟨hx, hxpre⟩
          rw [List.length_eq_zero] at h1
          rw [h1] at h2
          simp at h2
        · exact hkey x (List.mem_cons_of_mem _ hx) (by simpa using hxpre)
      obtain ⟨env', h1, h2⟩ := loadEnvFile_preserves ls (setItem env0 KEY id)
        (fun x hx hpx => hcrash x (List.mem_cons_of_mem _ hx) hpx) hnone
      refine ⟨env', ?_, ?_⟩
      · simp [updateLines, hpre, loadEnvFile, hproc, hsplit, h1]
      · rw [get_saved_devbox_id, h2]
        simp [getItem, setItem, List.find?]
    · have hpre' : (KEYLINE.isPrefixOf l) = false := Bool.eq_false_iff.mpr hpre
      by_cases hp : processLine l = true
      · have hs := hcrash l (List.mem_cons_self l ls) hp
        obtain ⟨kv, hkv⟩ := Option.isSome_iff_exists.mp hs
        obtain ⟨env', h1, h2⟩ := ih (setItem env0 kv.1 kv.2)
          (fun x hx hpx => hcrash x (List.mem_cons_of_mem _ hx) hpx)
          (by simpa [List.filter_cons, hpre'] using hdup)
          (fun x hx hxp => hkey x (List.mem_cons_of_mem _ hx) hxp)
        refine ⟨env', ?_, h2⟩
        simp [updateLines, hpre', loadEnvFile, hp, hkv, h1]
      · have hp' : processLine l = false := by simpa using hp
        obtain ⟨env', h1, h2⟩ := ih env0
          (fun x hx hpx => hcrash x (List.mem_cons_of_mem _ hx) hpx)
          (by simpa [List.filter_cons, hpre'] using hdup)
          (fun x hx hxp => hkey x (List.mem_cons_of_mem _ hx) hxp)
        refine ⟨env', ?_, h2⟩
        simp [updateLines, hpre', loadEnvFile, hp', h1]

/-- C8 witness: saving a concrete id into a one-line file and re-running the
loader yields that id back. -/
theorem pointer_store_reload_roundtrip_witness :
    strip (pointerLine pointerId) = KEYLINE ++ pointerId
    ∧ ∃ env', loadEnvFile (updateLines envFileLines pointerId) [] = some env'
        ∧ get_saved_devbox_id env' = pointerId :=
  ⟨by decide,
   pointer_store_reload_roundtrip envFileLines pointerId [] (by decide) (by decide)
     (by decide) (by decide) (by decide)⟩

set_option maxRecDepth 40000 in
/-- C9: the swarm quality score is capped at 1, and the concrete response
with a fenced code block, 600 characters, 8 newlines and the word "example"
scores exactly 1. -/
theorem swarm_quality_score_spec :
    (∀ r : String, quality_score r ≤ 1)
    ∧ sampleResponse.length = 600
    ∧ newlineCount sampleResponse = 8
    ∧ strContains sampleResponse "```" = true
    ∧ strContains sampleResponse "example" = true
    ∧ quality_score sampleResponse = 1 := by
  refine ⟨fun r => ?_, by decide, by decide, by decide, by decide, ?_⟩
  · simp only [quality_score]
    exact min_le_right _ _
  · show min ((3 / 10 : ℚ) + 2 / 10 + 2 / 10 + 2 / 10 + 1 / 10) 1 = 1
    norm_num

end Omnibot

